import Mathlib

/-!
# Verification of the monthly goal-tracker (`main.py`)

Shallow embedding of the goal-tracking CLI: the data model
(`SuccessCriteria`, `Goal`, `State`), JSON (de)serialization as performed by
`EnhancedJSONEncoder` / `State.from_state_file`, and the interactive `main`
flow (date gate, reflection phase, goal-entry phase, finalization), modelled
as pure functions over an explicit file-system value and a scripted list of
stdin lines.
-/

namespace Commandments

/-! ## Calendar dates

Python's `datetime.date`: a triple (year, month, day) with
`1 <= year <= 9999` and a valid month/day.  `isoformat` renders
`YYYY-MM-DD`; `fromisoformat` parses it back, validating ranges.
`date + timedelta(days = n)` is `fromordinal (toordinal d + n)` where the
ordinal is the proleptic-Gregorian day count with `0001-01-01 = 1`. -/

structure Date where
  year : Nat
  month : Nat
  day : Nat
deriving DecidableEq, Repr

def isLeap (y : Nat) : Bool :=
  y % 4 == 0 && (y % 100 != 0 || y % 400 == 0)

def daysInMonth (y m : Nat) : Nat :=
  if m = 2 then (if isLeap y then 29 else 28)
  else if m = 4 ∨ m = 6 ∨ m = 9 ∨ m = 11 then 30
  else 31

def ValidDate (d : Date) : Prop :=
  1 ≤ d.year ∧ d.year ≤ 9999 ∧ 1 ≤ d.month ∧ d.month ≤ 12 ∧
    1 ≤ d.day ∧ d.day ≤ daysInMonth d.year d.month

instance (d : Date) : Decidable (ValidDate d) := by
  unfold ValidDate; infer_instance

/-- Proleptic Gregorian ordinal, `0001-01-01 ↦ 1` (as `date.toordinal`).
Computed by the standard civil-calendar algorithm (era = 400-year cycle). -/
def Date.toOrdinal (d : Date) : Nat :=
  let y := if d.month ≤ 2 then d.year - 1 else d.year
  let era := y / 400
  let yoe := y % 400
  let mp := if d.month ≤ 2 then d.month + 9 else d.month - 3
  let doy := (153 * mp + 2) / 5 + d.day - 1
  let doe := yoe * 365 + yoe / 4 - yoe / 100 + doy
  era * 146097 + doe - 305

/-- Inverse of `Date.toOrdinal` (as `date.fromordinal`). -/
def Date.fromOrdinal (n : Nat) : Date :=
  let z := n + 305
  let era := z / 146097
  let doe := z % 146097
  let yoe := (doe - doe / 1460 + doe / 36524 - doe / 146096) / 365
  let y := yoe + era * 400
  let doy := doe - (365 * yoe + yoe / 4 - yoe / 100)
  let mp := (5 * doy + 2) / 153
  let dd := doy - (153 * mp + 2) / 5 + 1
  let m := if mp < 10 then mp + 3 else mp - 9
  ⟨if m ≤ 2 then y + 1 else y, m, dd⟩

/-- `d + timedelta(days = n)`. -/
def addDays (d : Date) (n : Nat) : Date :=
  Date.fromOrdinal (d.toOrdinal + n)

/-! ## ISO-8601 rendering and parsing of dates -/

def digitChar (n : Nat) : Char := Char.ofNat (48 + n)

def charDigit (c : Char) : Option Nat :=
  if 48 ≤ c.toNat ∧ c.toNat ≤ 57 then some (c.toNat - 48) else none

def pad2 (n : Nat) : List Char :=
  [digitChar (n / 10 % 10), digitChar (n % 10)]

def pad4 (n : Nat) : List Char :=
  [digitChar (n / 1000 % 10), digitChar (n / 100 % 10),
   digitChar (n / 10 % 10), digitChar (n % 10)]

/-- `date.isoformat()`: `YYYY-MM-DD`, zero padded. -/
def dateToIso (d : Date) : String :=
  ⟨pad4 d.year ++ '-' :: pad2 d.month ++ '-' :: pad2 d.day⟩

/-- `date.fromisoformat` on the canonical `YYYY-MM-DD` form: exactly ten
characters, digits in the date positions, dashes between, and the resulting
numbers must form a valid calendar date (otherwise `ValueError`, i.e.
`none`). -/
def isoToDate (s : String) : Option Date :=
  match s.data with
  | [y1, y2, y3, y4, h1, m1, m2, h2, d1, d2] =>
    if h1 = '-' ∧ h2 = '-' then
      match charDigit y1, charDigit y2, charDigit y3, charDigit y4,
            charDigit m1, charDigit m2, charDigit d1, charDigit d2 with
      | some a, some b, some c, some e,
        some f, some g, some h, some i =>
        let yr := a * 1000 + b * 100 + c * 10 + e
        let mo := f * 10 + g
        let dy := h * 10 + i
        if 1 ≤ yr ∧ 1 ≤ mo ∧ mo ≤ 12 ∧ 1 ≤ dy ∧ dy ≤ daysInMonth yr mo then
          some ⟨yr, mo, dy⟩
        else none
      | _, _, _, _, _, _, _, _ => none
    else none
  | _ => none

/-! ## JSON values and the data model

`Json` is the JSON value tree produced by `json.load` / consumed by
`json.dump` (numbers restricted to integers: the program only ever stores
Python `int`s).  The dataclasses `SuccessCriteria`, `Goal`, `State` mirror
`main.py` lines 43-61; `int` becomes `Int`, `date` becomes `Date`,
`bool | None` becomes `Option Bool`. -/

inductive Json where
  | null : Json
  | bool (b : Bool) : Json
  | num (n : Int) : Json
  | str (s : String) : Json
  | arr (elems : List Json) : Json
  | obj (fields : List (String × Json)) : Json

structure SuccessCriteria where
  num_checkpoints : Int
  permitted_failures : Int
deriving DecidableEq, Repr

structure Goal where
  name : String
  success_criteria : SuccessCriteria
  starts_at : Date
  ends_at : Date
  was_successful : Option Bool
deriving DecidableEq, Repr

structure State where
  goals : List Goal
  goals_last_updated : Option Date
deriving DecidableEq, Repr

/-! ## Serialization (`EnhancedJSONEncoder` + `dataclasses.asdict`)

`json.dump(state, f, cls=EnhancedJSONEncoder)` turns each dataclass into an
object with its fields in declaration order, and each `date` into its
`isoformat()` string; `None` becomes `null`, `bool` stays a bool. -/

def SuccessCriteria.toJson (sc : SuccessCriteria) : Json :=
  .obj [("num_checkpoints", .num sc.num_checkpoints),
        ("permitted_failures", .num sc.permitted_failures)]

def optBoolToJson : Option Bool → Json
  | none => .null
  | some b => .bool b

def Goal.toJson (g : Goal) : Json :=
  .obj [("name", .str g.name),
        ("success_criteria", g.success_criteria.toJson),
        ("starts_at", .str (dateToIso g.starts_at)),
        ("ends_at", .str (dateToIso g.ends_at)),
        ("was_successful", optBoolToJson g.was_successful)]

def State.toJson (s : State) : Json :=
  .obj [("goals", .arr (s.goals.map Goal.toJson)),
        ("goals_last_updated",
          match s.goals_last_updated with
          | none => .null
          | some d => .str (dateToIso d))]

/-! ## Parsing (`State.from_state_file`, lines 69-90)

`json_state["k"]` is association lookup (a missing key raises `KeyError`,
an uncaught crash, modelled as `none`); reading a field at the wrong JSON
type likewise crashes (`TypeError` / `ValueError`), modelled as `none`. -/

def Json.lookup (j : Json) (k : String) : Option Json :=
  match j with
  | .obj fields => fields.lookup k
  | _ => none

def Json.asStr : Json → Option String
  | .str s => some s
  | _ => none

def Json.asInt : Json → Option Int
  | .num n => some n
  | _ => none

def Json.asArr : Json → Option (List Json)
  | .arr xs => some xs
  | _ => none

/-- `goal["was_successful"]` is stored straight into the `bool | None`
field: `null` and booleans are the values the program itself writes. -/
def Json.asOptBool : Json → Option (Option Bool)
  | .null => some none
  | .bool b => some (some b)
  | _ => none

def parseGoal (j : Json) : Option Goal := do
  let name ← (← j.lookup "name").asStr
  let scJ ← j.lookup "success_criteria"
  let nc ← (← scJ.lookup "num_checkpoints").asInt
  let pf ← (← scJ.lookup "permitted_failures").asInt
  let sa ← isoToDate (← (← j.lookup "starts_at").asStr)
  let ea ← isoToDate (← (← j.lookup "ends_at").asStr)
  let ws ← (← j.lookup "was_successful").asOptBool
  pure ⟨name, ⟨nc, pf⟩, sa, ea, ws⟩

/-- The list comprehension over `json_state["goals"]`: goals parsed in
order, the first failure aborting the whole load. -/
def parseGoals : List Json → Option (List Goal)
  | [] => some []
  | j :: js =>
    match parseGoal j with
    | none => none
    | some g =>
      match parseGoals js with
      | none => none
      | some gs => some (g :: gs)

def parseState (j : Json) : Option State := do
  let goalsJ ← (← j.lookup "goals").asArr
  let goals ← parseGoals goalsJ
  let glu ← match (← j.lookup "goals_last_updated") with
    | .null => pure none
    | .str s => (isoToDate s).map some
    | _ => none
  pure ⟨goals, glu⟩

/-! ## State file and `State.from_state_file`

The state file on disk is absent (`none`), unparseable text
(`FileData.corrupt`, making `json.load` raise `JSONDecodeError`), or a JSON
value.  `from_state_file` (lines 63-100): on `JSONDecodeError` it prints
"Error: state file is corrupted." / "Please delete the state file and
restart the program." and returns `None`; on `FileNotFoundError` it builds
the empty state, writes it out, and returns it; any other exception while
destructuring the JSON (`KeyError`, `ValueError`, ...) is uncaught and
crashes the program. -/

inductive FileData where
  | corrupt : FileData
  | json (j : Json) : FileData

/-- Result of `State.from_state_file()`, together with the list of
state-file writes it performed.  `corrupted` is the branch that prints the
corruption report with the delete-and-restart instructions. -/
inductive LoadResult where
  | ok (s : State) (writes : List Json) : LoadResult
  | corrupted : LoadResult
  | crash : LoadResult

def emptyState : State := ⟨[], none⟩

def from_state_file (fs : Option FileData) : LoadResult :=
  match fs with
  | none => .ok emptyState [State.toJson emptyState]
  | some .corrupt => .corrupted
  | some (.json j) =>
    match parseState j with
    | some s => .ok s []
    | none => .crash

/-! ## Scripted interaction

`input()` consumes the next line of a scripted stdin; an exhausted script is
`EOFError`, a crash.  Python's `int()` on the forms exercised here: an
optional sign followed by one or more decimal digits (anything else raises
`ValueError`, a crash). -/

def digitsValAux : List Char → Nat → Option Nat
  | [], acc => some acc
  | c :: cs, acc =>
    match charDigit c with
    | none => none
    | some d => digitsValAux cs (acc * 10 + d)

def digitsVal (cs : List Char) : Option Nat :=
  match cs with
  | [] => none
  | _ => digitsValAux cs 0

def pyInt (s : String) : Option Int :=
  match s.data with
  | '-' :: cs => (digitsVal cs).map (fun n => -(n : Int))
  | '+' :: cs => (digitsVal cs).map (fun n => (n : Int))
  | cs => (digitsVal cs).map (fun n => (n : Int))

/-- Reflection phase (lines 123-137).  The program iterates over the goals
whose `was_successful` is `None`; each is prompted once.  Answer `"q"`
breaks out, leaving every remaining goal untouched; any other answer sets
`was_successful = (answer == "y")`.  Goals already marked are skipped
without a prompt.  Returns the updated goal list and the unconsumed input,
or `none` when `input()` hits end of script (`EOFError`). -/
def reflectLoop : List Goal → List String → Option (List Goal × List String)
  | [], inputs => some ([], inputs)
  | g :: gs, inputs =>
    match g.was_successful with
    | some _ =>
      match reflectLoop gs inputs with
      | none => none
      | some (gs2, rest) => some (g :: gs2, rest)
    | none =>
      match inputs with
      | [] => none
      | ans :: rest =>
        if ans = "q" then some (g :: gs, rest)
        else
          match reflectLoop gs rest with
          | none => none
          | some (gs2, rest2) =>
            some ({ g with was_successful := some (ans = "y") } :: gs2, rest2)

/-- Goal-entry phase (lines 142-157).  Prompt for a name; `"q"` breaks the
loop.  Otherwise read and `int()`-parse the checkpoint count, then the
permitted-failure count (a parse failure or exhausted input crashes), build
`Goal(name, SuccessCriteria(c, p), starts_at = today,
ends_at = today + timedelta(days=30))` (`was_successful` defaulting to
`None`) and append it.  Returns the accumulated goal list and the
unconsumed input. -/
def entryLoop (today : Date) : List String → List Goal → Option (List Goal × List String)
  | [], _ => none
  | name :: rest, acc =>
    if name = "q" then some (acc, rest)
    else
      match rest with
      | [] => none
      | [_] => none
      | cStr :: pStr :: rest2 =>
        match pyInt cStr with
        | none => none
        | some c =>
          match pyInt pStr with
          | none => none
          | some p =>
            entryLoop today rest2
              (acc ++ [⟨name, ⟨c, p⟩, today, addDays today 30, none⟩])

/-! ## `main` (lines 107-164) -/

inductive Outcome where
  | exit (code : Nat) : Outcome
  | crash : Outcome
deriving DecidableEq, Repr

/-- Observable result of one program run: exit status (or uncaught-exception
crash), how many times the state file was opened for reading, every content
written to the state file in order, and the "Come back back on ..." date
printed by the already-updated gate (if reached). -/
structure RunResult where
  outcome : Outcome
  reads : Nat
  writes : List Json
  reported_next : Option Date

/-- The whole of `main()` (lines 107-164), over an explicit date-of-today,
state-file content, and stdin script.  Note line 159: the state is written
back with `goals_last_updated` exactly as loaded — `main` contains no
assignment to `state.goals_last_updated`. -/
def main (today : Date) (fs : Option FileData) (inputs : List String) : RunResult :=
  if today.day ≠ 1 then ⟨.exit 1, 0, [], none⟩
  else
    match from_state_file fs with
    | .corrupted => ⟨.exit 1, 1, [], none⟩
    | .crash => ⟨.crash, 1, [], none⟩
    | .ok state initWrites =>
      if state.goals_last_updated = some today then
        ⟨.exit 1, 1, initWrites, some (addDays today 30)⟩
      else
        match reflectLoop state.goals inputs with
        | none => ⟨.crash, 1, initWrites, none⟩
        | some (goals1, inputs1) =>
          match entryLoop today inputs1 goals1 with
          | none => ⟨.crash, 1, initWrites, none⟩
          | some (goals2, _) =>
            ⟨.exit 0, 1,
             initWrites ++ [State.toJson ⟨goals2, state.goals_last_updated⟩],
             none⟩

/-- Content of the state file after a run: the last write, if any. -/
def finalFs (fs : Option FileData) (r : RunResult) : Option FileData :=
  match r.writes.getLast? with
  | some j => some (.json j)
  | none => fs

/-- The dates a `Goal` carries are Python `date` objects, hence valid. -/
def GoalValid (g : Goal) : Prop := ValidDate g.starts_at ∧ ValidDate g.ends_at

instance (g : Goal) : Decidable (GoalValid g) := by
  unfold GoalValid; infer_instance

/-- The dates a `State` carries are Python `date` objects, hence valid. -/
def StateValid (s : State) : Prop :=
  (∀ g ∈ s.goals, GoalValid g) ∧ ∀ d ∈ s.goals_last_updated, ValidDate d

instance (s : State) : Decidable (StateValid s) := by
  unfold StateValid; infer_instance

/-- A sample persisted state exercising both goal shapes (marked and
unmarked) and a set `goals_last_updated`. -/
def sampleState : State :=
  ⟨[⟨"Exercise", ⟨30, 1⟩, ⟨2024, 1, 1⟩, ⟨2024, 1, 31⟩, some true⟩,
    ⟨"Read", ⟨3, 5⟩, ⟨2023, 12, 2⟩, ⟨2024, 1, 1⟩, none⟩], some ⟨2024, 1, 1⟩⟩

/-! ## Helper lemmas -/

lemma from_state_file_writes (fs : Option FileData) (s : State) (w : List Json)
    (h : from_state_file fs = .ok s w) :
    w = [] ∨ (fs = none ∧ s = emptyState ∧ w = [State.toJson emptyState]) := by
  rcases fs with _ | fd
  · simp only [from_state_file, LoadResult.ok.injEq] at h
    exact .inr ⟨rfl, h.1.symm, h.2.symm⟩
  · rcases fd with _ | j
    · simp [from_state_file] at h
    · simp only [from_state_file] at h
      rcases hP : parseState j with _ | s2 <;> rw [hP] at h
      · cases h
      · simp only [LoadResult.ok.injEq] at h
        exact .inl h.2.symm

lemma charDigit_digitChar (k : Nat) (h : k < 10) :
    charDigit (digitChar k) = some k := by
  interval_cases k <;> decide

lemma isoToDate_dateToIso (d : Date) (hd : ValidDate d) :
    isoToDate (dateToIso d) = some d := by
  obtain ⟨y, m, dy⟩ := d
  obtain ⟨h1, h2, h3, h4, h5, h6⟩ := hd
  dsimp only at h1 h2 h3 h4 h5 h6
  simp only [dateToIso, pad4, pad2, isoToDate, List.cons_append, List.nil_append]
  simp only [charDigit_digitChar _ (Nat.mod_lt _ (by omega))]
  have hy : y / 1000 % 10 * 1000 + y / 100 % 10 * 100 + y / 10 % 10 * 10 + y % 10 = y := by
    omega
  have hm : m / 10 % 10 * 10 + m % 10 = m := by
    simp only [daysInMonth] at h6
    omega
  have hdy : dy / 10 % 10 * 10 + dy % 10 = dy := by
    simp only [daysInMonth] at h6
    split_ifs at h6 <;> omega
  simp only [hy, hm, hdy]
  have : (1 ≤ y ∧ 1 ≤ m ∧ m ≤ 12 ∧ 1 ≤ dy ∧ dy ≤ daysInMonth y m) := ⟨h1, h3, h4, h5, h6⟩
  simp [this]

lemma parseGoal_toJson (g : Goal) (h : GoalValid g) : parseGoal g.toJson = some g := by
  obtain ⟨n, sc, sa, ea, ws⟩ := g
  obtain ⟨h1, h2⟩ := h
  dsimp only at h1 h2
  simp [parseGoal, Goal.toJson, SuccessCriteria.toJson, Json.lookup, List.lookup,
    Json.asStr, Json.asInt, Json.asOptBool,
    isoToDate_dateToIso _ h1, isoToDate_dateToIso _ h2]
  cases ws <;> simp [optBoolToJson, Json.asOptBool]

lemma parseGoals_toJson (gs : List Goal) (h : ∀ g ∈ gs, GoalValid g) :
    parseGoals (gs.map Goal.toJson) = some gs := by
  induction gs with
  | nil => rfl
  | cons g rest ih =>
    simp [parseGoals, parseGoal_toJson g (h g (by simp)),
      ih (fun g hg => h g (by simp [hg]))]

lemma parseState_toJson (s : State) (h : StateValid s) :
    parseState (State.toJson s) = some s := by
  obtain ⟨gs, glu⟩ := s
  obtain ⟨h1, h2⟩ := h
  dsimp only at h1 h2
  simp [parseState, State.toJson, Json.lookup, List.lookup, Json.asArr,
    parseGoals_toJson gs h1]
  cases glu with
  | none => simp
  | some d => simp [isoToDate_dateToIso d (h2 d rfl)]

/-! ## Claims -/

/-- C1: the claim says a successful session sets `state.goals_last_updated`
to today before persisting, so a second run on the same day-1 date halts at
the gate (exit 1, zero writes, reporting `today + 30 days`).  The code never
assigns `goals_last_updated`: a first run on 2024-06-01 from an absent file
persists `goals_last_updated = null`, and the rerun on the same day passes
the gate, completes a whole second session with exit code 0, writes the file
again, and reports no next-eligible date. -/
theorem same_day_rerun_writes_again :
    (main ⟨2024, 6, 1⟩ none ["q"]).outcome = Outcome.exit 0 ∧
    (main ⟨2024, 6, 1⟩ none ["q"]).writes.getLast? = some (State.toJson emptyState) ∧
    finalFs none (main ⟨2024, 6, 1⟩ none ["q"]) = some (FileData.json (State.toJson emptyState)) ∧
    (main ⟨2024, 6, 1⟩ (some (FileData.json (State.toJson emptyState))) ["q"]).outcome =
      Outcome.exit 0 ∧
    (main ⟨2024, 6, 1⟩ (some (FileData.json (State.toJson emptyState))) ["q"]).writes =
      [State.toJson emptyState] ∧
    (main ⟨2024, 6, 1⟩ (some (FileData.json (State.toJson emptyState))) ["q"]).reported_next =
      none :=
  ⟨rfl, rfl, rfl, rfl, rfl, rfl⟩

/-- C2 (counterexample): entering `"quit"` at the goal-name prompt does not
end the entry loop: the program goes on to prompt for checkpoint counts
(with no further input it crashes at that prompt), and with numeric answers
it appends a `Goal` named `"quit"`. -/
theorem quit_does_not_end_entry_loop :
    entryLoop ⟨2024, 6, 1⟩ ["quit", "3", "1", "q"] [] =
      some ([⟨"quit", ⟨3, 1⟩, ⟨2024, 6, 1⟩, ⟨2024, 7, 1⟩, none⟩], []) ∧
    entryLoop ⟨2024, 6, 1⟩ ["quit"] [] = none :=
  ⟨rfl, rfl⟩

/-- C2 (amended): the sentinel is the literal string `"q"`: entering it at
the goal-name prompt ends the entry loop immediately, with no further
prompts for that iteration and no `Goal` appended for that input. -/
theorem q_sentinel_ends_entry_loop (today : Date) (rest : List String) (acc : List Goal) :
    entryLoop today ("q" :: rest) acc = some (acc, rest) := by
  cases rest with
  | nil => simp [entryLoop]
  | cons a as =>
    cases as with
    | nil => simp [entryLoop]
    | cons b bs => simp [entryLoop]

/-- C3: a state file that exists but is not parseable JSON makes `load()`
take the corruption branch (the one printing the corruption report and the
delete-and-restart instructions), and the program — on any date — exits
with code 1 having attempted no write to the state file. -/
theorem corrupted_file_halts_without_write (today : Date) (inputs : List String) :
    from_state_file (some FileData.corrupt) = LoadResult.corrupted ∧
    (main today (some FileData.corrupt) inputs).outcome = Outcome.exit 1 ∧
    (main today (some FileData.corrupt) inputs).writes = [] := by
  refine ⟨rfl, ?_, ?_⟩ <;>
    by_cases h : today.day = 1 <;> simp [main, from_state_file, h]

/-- C4: on any date whose day-of-month is not 1, the run exits with code 1
after zero state-file reads and zero state-file writes. -/
theorem wrong_day_no_io (today : Date) (fs : Option FileData) (inputs : List String)
    (h : today.day ≠ 1) :
    main today fs inputs = ⟨Outcome.exit 1, 0, [], none⟩ := by
  simp [main, h]

theorem wrong_day_no_io_witness :
    Date.day ⟨2024, 6, 2⟩ ≠ 1 ∧
    main ⟨2024, 6, 2⟩ none [] = ⟨Outcome.exit 1, 0, [], none⟩ :=
  ⟨by decide, wrong_day_no_io ⟨2024, 6, 2⟩ none [] (by decide)⟩

/-- C5: with the state file absent, `load()` builds the empty state
(`goals = []`, `goals_last_updated = null`), persists exactly that state to
the file, and returns it. -/
theorem absent_file_initializes_and_persists_empty :
    from_state_file none = LoadResult.ok emptyState [State.toJson emptyState] ∧
    emptyState = ⟨[], none⟩ ∧
    State.toJson emptyState =
      Json.obj [("goals", Json.arr []), ("goals_last_updated", Json.null)] :=
  ⟨rfl, rfl, rfl⟩

/-- C6: a non-sentinel goal name with successfully parsed integer
checkpoint and permitted-failure counts appends — at the end of the
accumulated goal list — a new `Goal` with those criteria,
`starts_at = today`, `ends_at = today + 30 days`, and `was_successful`
unset, and the loop continues with the remaining input. -/
theorem entry_appends_goal (today : Date) (name cStr pStr : String)
    (rest : List String) (acc : List Goal) (c p : Int)
    (hn : name ≠ "q") (hc : pyInt cStr = some c) (hp : pyInt pStr = some p) :
    entryLoop today (name :: cStr :: pStr :: rest) acc =
      entryLoop today rest (acc ++ [⟨name, ⟨c, p⟩, today, addDays today 30, none⟩]) := by
  simp [entryLoop, hn, hc, hp]

theorem entry_appends_goal_witness :
    ("Read" : String) ≠ "q" ∧ pyInt "30" = some 30 ∧ pyInt "1" = some 1 ∧
    entryLoop ⟨2024, 6, 1⟩ ["Read", "30", "1"] [] =
      entryLoop ⟨2024, 6, 1⟩ []
        ([] ++ [⟨"Read", ⟨30, 1⟩, ⟨2024, 6, 1⟩, addDays ⟨2024, 6, 1⟩ 30, none⟩]) :=
  ⟨by decide, rfl, rfl,
    entry_appends_goal ⟨2024, 6, 1⟩ "Read" "30" "1" [] [] 30 1 (by decide) rfl rfl⟩

/-- C7: serializing any `State` (holding real calendar dates, as Python's
`date` guarantees) and loading the written file back yields the identical
`State`: every goal name, criteria pair, both dates, the tri-state
`was_successful`, the goal order, and `goals_last_updated` survive the
round trip, and the reload performs no write. -/
theorem save_load_roundtrip (s : State) (h : StateValid s) :
    from_state_file (some (FileData.json (State.toJson s))) = LoadResult.ok s [] := by
  simp [from_state_file, parseState_toJson s h]

theorem save_load_roundtrip_witness :
    StateValid sampleState ∧
    from_state_file (some (FileData.json (State.toJson sampleState))) =
      LoadResult.ok sampleState [] :=
  ⟨by decide, save_load_roundtrip sampleState (by decide)⟩

/-- C8 (counterexample): an integer-parse crash during goal entry on a run
that began with an absent state file still leaves one write behind — the
empty initial state persisted by `load()` — so the run persists something
new despite ending in a fatal error. -/
theorem crash_after_init_write_persists_new_file :
    (main ⟨2024, 6, 1⟩ none ["Read", "x"]).outcome = Outcome.crash ∧
    (main ⟨2024, 6, 1⟩ none ["Read", "x"]).writes = [State.toJson emptyState] ∧
    (main ⟨2024, 6, 1⟩ none ["Read", "x"]).writes ≠ [] := by
  refine ⟨rfl, rfl, fun hc => ?_⟩
  have h2 : (main ⟨2024, 6, 1⟩ none ["Read", "x"]).writes = [State.toJson emptyState] := rfl
  rw [h2] at hc
  simp at hc

/-- C8 (amended): every error is terminal: a run that does not exit with
code 0 performs no write at all, except that a run started with an absent
state file may have persisted exactly the empty initial state that `load()`
creates — no session data (reflection answers or entered goals) is ever
persisted unless the full session completes. -/
theorem no_partial_session_persistence (today : Date) (fs : Option FileData)
    (inputs : List String) (h : (main today fs inputs).outcome ≠ Outcome.exit 0) :
    (main today fs inputs).writes = [] ∨
      (fs = none ∧ (main today fs inputs).writes = [State.toJson emptyState]) := by
  by_cases hday : today.day ≠ 1
  · left; simp [main, hday]
  · rcases hL : from_state_file fs with ⟨s, w⟩ | _ | _
    · by_cases hG : s.goals_last_updated = some today
      · rcases from_state_file_writes fs s w hL with hw | ⟨hfs, hs, hw⟩
        · left; simp [main, hday, hL, hG, hw]
        · rw [hs] at hG; simp [emptyState] at hG
      · rcases hR : reflectLoop s.goals inputs with _ | ⟨gs1, in1⟩
        · rcases from_state_file_writes fs s w hL with hw | ⟨hfs, hs, hw⟩
          · left; simp [main, hday, hL, hG, hR, hw]
          · right; exact ⟨hfs, by simp [main, hday, hL, hG, hR, hw]⟩
        · rcases hE : entryLoop today in1 gs1 with _ | ⟨gs2, rest2⟩
          · rcases from_state_file_writes fs s w hL with hw | ⟨hfs, hs, hw⟩
            · left; simp [main, hday, hL, hG, hR, hE, hw]
            · right; exact ⟨hfs, by simp [main, hday, hL, hG, hR, hE, hw]⟩
          · exact absurd (by simp [main, hday, hL, hG, hR, hE]) h
    · left; simp [main, hday, hL]
    · left; simp [main, hday, hL]

theorem no_partial_session_persistence_witness :
    (main ⟨2024, 6, 1⟩ (some (FileData.json (State.toJson emptyState)))
        ["Read", "x"]).outcome ≠ Outcome.exit 0 ∧
    ((main ⟨2024, 6, 1⟩ (some (FileData.json (State.toJson emptyState)))
        ["Read", "x"]).writes = [] ∨
      (some (FileData.json (State.toJson emptyState)) = none ∧
        (main ⟨2024, 6, 1⟩ (some (FileData.json (State.toJson emptyState)))
          ["Read", "x"]).writes = [State.toJson emptyState])) :=
  ⟨fun hc => Outcome.noConfusion hc,
    no_partial_session_persistence ⟨2024, 6, 1⟩
      (some (FileData.json (State.toJson emptyState))) ["Read", "x"]
      (fun hc => Outcome.noConfusion hc)⟩

/-- C9: nothing validates `permitted_failures <= num_checkpoints`: an entry
whose permitted-failure count exceeds its checkpoint count is accepted and
appended with both values unmodified, exactly like any other entry. -/
theorem permitted_failures_exceeding_checkpoints_accepted (today : Date)
    (name cStr pStr : String) (rest : List String) (acc : List Goal) (c p : Int)
    (hn : name ≠ "q") (hc : pyInt cStr = some c) (hp : pyInt pStr = some p)
    (_hviol : c < p) :
    entryLoop today (name :: cStr :: pStr :: rest) acc =
      entryLoop today rest (acc ++ [⟨name, ⟨c, p⟩, today, addDays today 30, none⟩]) := by
  simp [entryLoop, hn, hc, hp]

theorem permitted_failures_exceeding_checkpoints_accepted_witness :
    ("Meditate" : String) ≠ "q" ∧ pyInt "3" = some 3 ∧ pyInt "5" = some 5 ∧
    (3 : Int) < 5 ∧
    entryLoop ⟨2024, 6, 1⟩ ["Meditate", "3", "5"] [] =
      entryLoop ⟨2024, 6, 1⟩ []
        ([] ++ [⟨"Meditate", ⟨3, 5⟩, ⟨2024, 6, 1⟩, addDays ⟨2024, 6, 1⟩ 30, none⟩]) :=
  ⟨by decide, rfl, rfl, by decide,
    permitted_failures_exceeding_checkpoints_accepted ⟨2024, 6, 1⟩ "Meditate" "3" "5"
      [] [] 3 5 (by decide) rfl rfl (by decide)⟩

/-- C10: at a reflection prompt for an unmarked goal, the exact answer
`"q"` aborts the phase leaving every remaining goal untouched, and any
other answer marks the goal with `was_successful = (answer == "y")` — so
only the exact string `"y"` marks success, and `"n"`, `""`, `"Y"`, `"yes"`
all mark failure. -/
theorem reflection_response_semantics (g : Goal) (gs : List Goal)
    (ans : String) (rest : List String) (hg : g.was_successful = none) :
    (ans = "q" → reflectLoop (g :: gs) (ans :: rest) = some (g :: gs, rest)) ∧
    (ans ≠ "q" →
      reflectLoop (g :: gs) (ans :: rest) =
        (reflectLoop gs rest).map
          (fun r => ({ g with was_successful := some (ans = "y") } :: r.1, r.2))) := by
  constructor
  · intro hq
    subst hq
    simp [reflectLoop, hg]
  · intro hq
    simp only [reflectLoop, hg]
    rw [if_neg hq]
    cases hR : reflectLoop gs rest with
    | none => simp
    | some pr => cases pr; simp

theorem reflection_response_semantics_witness :
    Goal.was_successful ⟨"Exercise", ⟨30, 1⟩, ⟨2024, 1, 1⟩, ⟨2024, 1, 31⟩, none⟩ = none ∧
    ("Y" : String) ≠ "q" ∧
    reflectLoop [⟨"Exercise", ⟨30, 1⟩, ⟨2024, 1, 1⟩, ⟨2024, 1, 31⟩, none⟩] ["Y"] =
      some ([⟨"Exercise", ⟨30, 1⟩, ⟨2024, 1, 1⟩, ⟨2024, 1, 31⟩, some false⟩], []) := by
  refine ⟨rfl, by decide, ?_⟩
  have h :=
    (reflection_response_semantics ⟨"Exercise", ⟨30, 1⟩, ⟨2024, 1, 1⟩, ⟨2024, 1, 31⟩, none⟩
      [] "Y" [] rfl).2 (by decide)
  exact h

end Commandments
